import Mathlib

/-!
Shallow embedding of src/unijoy.c (the "unijoy" virtual joystick merger).

Conventions of the embedding:
  * C `int` / `long` values are modelled as `Int`; where C overflow or a
    narrowing conversion matters the result is reduced explicitly with
    `wrap32` / `wrap16` (two's-complement wraparound, the behaviour of the
    compilers this module is built with).
  * C `>> 14` on a (possibly negative) `int` is the arithmetic shift, i.e.
    flooring division by 2^14 (`Int.fdiv`).
  * C integer division `/` truncates toward zero (`Int.tdiv`).
  * Fixed C arrays are modelled as total functions `Nat → _` together with
    the same explicit index checks the C code performs; an access the C code
    makes out of bounds (index -1) is modelled by returning `none` from the
    operation (`Option`), marking the execution as faulting.
  * Pointers to `struct unijoy_inph_source` held in mapping slots are
    modelled by the source's `id` (creation refuses duplicate ids, so ids
    identify sources in the registry).
  * External kernel collaborators (locks, input_open_device, jiffies, the
    fasync/wait machinery, copy_to_user) are outside the model; the `time`
    field of `struct js_event` (filled from the jiffies clock) is omitted.
-/

/-- KEY_MAX from the Linux input headers (0x2ff). -/
def KEY_MAX : Nat := 0x2ff

/-- BTN_MISC from the Linux input headers (0x100). -/
def BTN_MISC : Nat := 0x100

/-- BTN_JOYSTICK from the Linux input headers (0x120). -/
def BTN_JOYSTICK : Nat := 0x120

/-- ABS_CNT from the Linux input headers (0x3f + 1 = 64). -/
def ABS_CNT : Nat := 0x40

/-- UNIJOY_MAX_BUTTONS = KEY_MAX - BTN_MISC + 1 = 512 (unijoy.c line 75). -/
def UNIJOY_MAX_BUTTONS : Nat := KEY_MAX - BTN_MISC + 1

/-- EV_KEY event type from the Linux input headers. -/
def EV_KEY : Nat := 0x01

/-- EV_ABS event type from the Linux input headers. -/
def EV_ABS : Nat := 0x03

/-- JS_EVENT_BUTTON from linux/joystick.h. -/
def JS_EVENT_BUTTON : Nat := 0x01

/-- JS_EVENT_AXIS from linux/joystick.h. -/
def JS_EVENT_AXIS : Nat := 0x02

/-- JS_EVENT_INIT from linux/joystick.h. -/
def JS_EVENT_INIT : Nat := 0x80

/-- Reduce an integer to the value of the corresponding 32-bit two's
complement `int` (C signed overflow, as compiled). -/
def wrap32 (x : Int) : Int := Int.emod (x + 2 ^ 31) (2 ^ 32) - 2 ^ 31

/-- Reduce an integer to the value of the 16-bit two's complement `__s16`
it converts to (narrowing assignment into `struct js_event`). -/
def wrap16 (x : Int) : Int := Int.emod (x + 2 ^ 15) (2 ^ 16) - 2 ^ 15

/-- Arithmetic right shift by 14 of a 32-bit value (C `>> 14` on `int`). -/
def sar14 (x : Int) : Int := Int.fdiv x (2 ^ 14)

/-- Final clamp of `unijoy_inph_correct`:
`value < -32767 ? -32767 : (value > 32767 ? 32767 : value)`. -/
def clamp32767 (v : Int) : Int :=
  if v < -32767 then -32767 else if v > 32767 then 32767 else v

/-- Correction type of a `struct js_corr` record: JS_CORR_NONE (0x00),
JS_CORR_BROKEN (0x01), and any other tag value (the `default:` case). -/
inductive CorrType where
  | corrNone
  | broken
  | other
deriving DecidableEq, Repr

/-- A `struct js_corr` record as used by unijoy.c: correction type, the
`prec` field and the four coefficients `coef[0] .. coef[3]` that
`unijoy_inph_correct` and `unijoy_inph_create` touch. -/
structure JsCorr where
  type : CorrType
  prec : Int
  coef0 : Int
  coef1 : Int
  coef2 : Int
  coef3 : Int
deriving DecidableEq, Repr

/-- Translation of `unijoy_inph_correct` (unijoy.c lines 624-641):

```
switch (corr->type) {
  case JS_CORR_NONE: break;
  case JS_CORR_BROKEN:
    value = value > corr->coef[0] ? (value < corr->coef[1] ? 0 :
        ((corr->coef[3] * (value - corr->coef[1])) >> 14)) :
      ((corr->coef[2] * (value - corr->coef[0])) >> 14);
    break;
  default: return 0;
}
return value < -32767 ? -32767 : (value > 32767 ? 32767 : value);
```

The intermediate products are 32-bit `int` arithmetic, hence the `wrap32`
around each operation that can overflow. -/
def unijoy_inph_correct (value : Int) (corr : JsCorr) : Int :=
  match corr.type with
  | CorrType.corrNone => clamp32767 value
  | CorrType.broken =>
      let v : Int :=
        if value > corr.coef0 then
          if value < corr.coef1 then 0
          else sar14 (wrap32 (corr.coef3 * wrap32 (value - corr.coef1)))
        else sar14 (wrap32 (corr.coef2 * wrap32 (value - corr.coef0)))
      clamp32767 v
  | CorrType.other => 0

/-- Lifecycle state of a source (`enum unijoy_inph_source_state`,
unijoy.c lines 114-118): ONLINE, MERGED, WASMERGED. -/
inductive SourceState where
  | online
  | merged
  | wasmerged
deriving DecidableEq, Repr

/-- A `struct input_id` descriptor: four 16-bit fields. -/
structure InputId where
  bustype : Nat
  vendor : Nat
  product : Nat
  version : Nat
deriving DecidableEq, Repr

/-- Translation of `unijoy_make_id` (unijoy.c lines 277-282):
`(bustype << 48) + (vendor << 32) + (product << 16) + version`, modelled on
the 64-bit bit pattern as a natural number (the fields are zero-extended
16-bit values, so the shifted sums never interfere). -/
def unijoy_make_id (i : InputId) : Nat :=
  i.bustype * 2 ^ 48 + i.vendor * 2 ^ 32 + i.product * 2 ^ 16 + i.version

/-- A `struct unijoy_inph_source` (unijoy.c lines 126-140), minus the
kernel plumbing (`list_head`, `input_handle`).  The fixed arrays
`button_map[UNIJOY_MAX_BUTTONS]`, `button_revmap`, `axis_map[ABS_CNT]`,
`axis_revmap`, `axis` and `corrections` are modelled as total functions.
The extra field `key` models the live key-state bitmap of the physical
device the source's handle points at (`handle.dev->key` in the kernel),
which `unijoy_fops_startup` reads through the handle. -/
structure SourceRec where
  id : Nat
  name : String
  axis_no : Nat
  buttons_no : Nat
  state : SourceState
  button_map : Nat → Nat
  button_revmap : Nat → Nat
  axis_map : Nat → Nat
  axis_revmap : Nat → Nat
  axis : Nat → Int
  corrections : Nat → JsCorr
  key : Nat → Bool

/-- One output mapping slot (`struct unijoy_inph_source_map`,
unijoy.c lines 142-145): the back-reference to the owning source (a pointer
in C, modelled by the source id, `none` = NULL) and the source-local index
(`mapping`, an `int`). -/
structure Slot where
  source : Option Nat
  mapping : Int
deriving DecidableEq, Repr

/-- One output resource table: the element count (`output.buttons_no` /
`output.axis_no`) plus its slot array (`output.button_map` /
`output.axis_map`).  The C arrays are fixed-size; the capacity checks are
performed by the operations exactly where the C code performs them. -/
structure Res where
  count : Nat
  slots : Nat → Slot

/-- Pointwise update of a modelled C array. -/
def upd {α : Type} (f : Nat → α) (i : Nat) (v : α) : Nat → α :=
  fun j => if j = i then v else f j

/-- The zeroed initial table (static storage: `output` is a zeroed global,
so counts are 0 and every slot has a NULL source). -/
def resInit : Res := ⟨0, fun _ => ⟨none, 0⟩⟩

/-- First-empty-slot scan of the add operations
(`for (i = 0; i < output.buttons_no; i++) if (!output.button_map[i].source)`):
smallest index below `count` whose slot has no source. -/
def firstEmpty (slots : Nat → Slot) (count : Nat) : Option Nat :=
  (List.range count).find? (fun i => (slots i).source == none)

/-- The downward compaction scan of the del operations
(`i = dst_no; while (!output.button_map[i].source) i--;`), entered with
the freshly cleared slot at the start index: walking down from `k`, return
the first index holding a source.  `none` models the C loop walking past
index 0 and reading the array at index -1 (out of bounds). -/
def scanDown (slots : Nat → Slot) : Nat → Option Nat
  | 0 => if (slots 0).source = none then none else some 0
  | k + 1 => if (slots (k + 1)).source = none then scanDown slots k else some (k + 1)

/-- Translation of `unijoy_sysfs_add_button` (unijoy.c lines 449-482) and
`unijoy_sysfs_add_axis` (lines 506-539).  The two C functions are textually
identical (the file even carries `TODO: generalize` comments) except for
the capacity (`UNIJOY_MAX_BUTTONS` vs `ABS_CNT`) and which per-source
count bounds `src_no` (`buttons_no` vs `axis_no`); both are parameters.

```
if (!source) return;
if (source->state != UNIJOY_SOURCE_MERGED) return;
if (src_no < 0 || src_no > source->buttons_no) return;
if (dst_no < 0) {
  for (i = 0; i < output.buttons_no; i++)
    if (!output.button_map[i].source) { dst_no = i; break; }
  if (dst_no < 0 && output.buttons_no < UNIJOY_MAX_BUTTONS)
    dst_no = output.buttons_no;
}
if (dst_no >= output.buttons_no) {
  if (dst_no >= UNIJOY_MAX_BUTTONS) return;
  output.buttons_no = dst_no+1;
}
output.button_map[dst_no].source  = source;
output.button_map[dst_no].mapping = src_no;
```

When the auto-pick leaves `dst_no` negative (full table), the C code falls
through and writes `button_map[-1]`; that out-of-bounds write is modelled
by `none` in `unijoy_res_add`.

This definition is the destination-resolution block (`if (dst_no < 0) ...`)
of the C code above. -/
def resolveDst (cap : Nat) (st : Res) (dst_no : Int) : Int :=
  if dst_no < 0 then
    match firstEmpty st.slots st.count with
    | some i => (i : Int)
    | none => if st.count < cap then (st.count : Int) else dst_no
  else dst_no

/-- The add operation proper (guards, capacity check, slot write and count
growth); the C source is quoted on `resolveDst` above. -/
def unijoy_res_add (cap : Nat) (local_no : SourceRec → Nat)
    (sourceOpt : Option SourceRec) (src_no dst_no : Int) (st : Res) :
    Option Res :=
  match sourceOpt with
  | none => some st
  | some source =>
    if source.state ≠ SourceState.merged then some st
    else if src_no < 0 ∨ src_no > (local_no source : Int) then some st
    else
      if resolveDst cap st dst_no ≥ (st.count : Int) then
        if resolveDst cap st dst_no ≥ (cap : Int) then some st
        else some ⟨(resolveDst cap st dst_no).toNat + 1,
                   upd st.slots (resolveDst cap st dst_no).toNat ⟨some source.id, src_no⟩⟩
      else if resolveDst cap st dst_no < 0 then none
      else some ⟨st.count, upd st.slots (resolveDst cap st dst_no).toNat ⟨some source.id, src_no⟩⟩

/-- Translation of `unijoy_sysfs_del_button` (unijoy.c lines 484-503) and
`unijoy_sysfs_del_axis` (lines 542-561); the two are textually identical.

```
if (dst_no < 0 || dst_no >= output.buttons_no) return;
if (!output.button_map[dst_no].source) return;
output.button_map[dst_no].source = 0;
if (dst_no+1 == output.buttons_no) {
  i = dst_no;
  while (!output.button_map[i].source) i--;
  output.buttons_no = i+1;
}
```

The compaction loop starts at the slot just cleared, so it always steps
down at least once; if every slot at or below `dst_no` is empty, the C
loop reads `button_map[-1]` — modelled by `none`. -/
def unijoy_res_del (dst_no : Int) (st : Res) : Option Res :=
  if dst_no < 0 ∨ dst_no ≥ (st.count : Int) then some st
  else if (st.slots dst_no.toNat).source = none then some st
  else
    if dst_no.toNat + 1 = st.count then
      match scanDown (upd st.slots dst_no.toNat ⟨none, (st.slots dst_no.toNat).mapping⟩)
          dst_no.toNat with
      | some i =>
        some ⟨i + 1, upd st.slots dst_no.toNat ⟨none, (st.slots dst_no.toNat).mapping⟩⟩
      | none => none
    else some ⟨st.count, upd st.slots dst_no.toNat ⟨none, (st.slots dst_no.toNat).mapping⟩⟩

/-- `unijoy_sysfs_add_button`: the button instance of the add operation. -/
def unijoy_sysfs_add_button : Option SourceRec → Int → Int → Res → Option Res :=
  unijoy_res_add UNIJOY_MAX_BUTTONS (fun s => s.buttons_no)

/-- `unijoy_sysfs_del_button`: the button instance of the del operation. -/
def unijoy_sysfs_del_button : Int → Res → Option Res :=
  unijoy_res_del

/-- `unijoy_sysfs_add_axis`: the axis instance of the add operation. -/
def unijoy_sysfs_add_axis : Option SourceRec → Int → Int → Res → Option Res :=
  unijoy_res_add ABS_CNT (fun s => s.axis_no)

/-- `unijoy_sysfs_del_axis`: the axis instance of the del operation. -/
def unijoy_sysfs_del_axis : Int → Res → Option Res :=
  unijoy_res_del

/-- One control operation on a resource table, as dispatched by
`unijoy_sysfs_store` (`add_button`/`del_button` resp. `add_axis`/`del_axis`). -/
inductive ResOp where
  | add (source : Option SourceRec) (src_no dst_no : Int)
  | del (dst_no : Int)

/-- Apply one operation to a table. -/
def resStep (cap : Nat) (local_no : SourceRec → Nat) (st : Res) :
    ResOp → Option Res
  | ResOp.add source src_no dst_no => unijoy_res_add cap local_no source src_no dst_no st
  | ResOp.del dst_no => unijoy_res_del dst_no st

/-- Run a sequence of add/del operations; `none` as soon as one of them
makes an out-of-bounds array access. -/
def resRun (cap : Nat) (local_no : SourceRec → Nat) :
    List ResOp → Res → Option Res
  | [], st => some st
  | op :: rest, st =>
    match resStep cap local_no st op with
    | none => none
    | some st1 => resRun cap local_no rest st1

/-- The compaction invariant of the spec: every slot at index `count` or
above is empty, and (unless the table is empty) the slot at `count - 1`
holds a source — together: `count` = one plus the highest occupied index. -/
def ResInv (st : Res) : Prop :=
  (∀ i, st.count ≤ i → (st.slots i).source = none) ∧
  (st.count = 0 ∨ (st.slots (st.count - 1)).source ≠ none)

/-- The global state the sysfs handlers operate on: the source registry
(`unijoy_sysfs.sources`, a linked list) and the two output mapping tables
of the `output` global. -/
structure Sys where
  sources : List SourceRec
  buttons : Res
  axes : Res

/-- Translation of `unijoy_sysfs_find` (unijoy.c lines 432-447): linear
scan of the registry for the first source with the given id. -/
def unijoy_sysfs_find (id : Nat) (sys : Sys) : Option SourceRec :=
  sys.sources.find? (fun s => s.id == id)

/-- Translation of `unijoy_sysfs_remove` (unijoy.c lines 593-600):
`list_del` + `kfree` of the given source.  Sources are identified by id
(creation refuses duplicates, so the id identifies the list node). -/
def unijoy_sysfs_remove (sourceOpt : Option SourceRec) (sys : Sys) : Sys :=
  match sourceOpt with
  | none => sys
  | some source =>
    { sys with sources := sys.sources.filter (fun t => t.id ≠ source.id) }

/-- Translation of `unijoy_sysfs_unmerge` (unijoy.c lines 576-591):

```
if (!source) return;
if (source->state == UNIJOY_SOURCE_WASMERGED) { unijoy_sysfs_remove(source); return; }
if (source->state != UNIJOY_SOURCE_MERGED) return;
input_close_device(&source->handle);
source->state = UNIJOY_SOURCE_ONLINE;
```

`input_close_device` is an external collaborator; the state write through
the pointer is modelled as an update of the registry entry with the
source's id.  Note the function touches no mapping slot. -/
def unijoy_sysfs_unmerge (sourceOpt : Option SourceRec) (sys : Sys) : Sys :=
  match sourceOpt with
  | none => sys
  | some source =>
    if source.state = SourceState.wasmerged then
      unijoy_sysfs_remove (some source) sys
    else if source.state ≠ SourceState.merged then sys
    else
      { sys with sources := sys.sources.map (fun t =>
          if t.id = source.id then { t with state := SourceState.online } else t) }

/-- A `struct input_dev` as far as unijoy.c reads it: the id descriptor,
the name, the capability bitmaps (`absbit`, `keybit`), the per-axis
parameters read through `input_abs_get_{max,min,fuzz,flat,val}`, and the
live key state bitmap `key`. -/
structure InputDev where
  devid : InputId
  name : String
  absbit : Nat → Bool
  keybit : Nat → Bool
  absMax : Nat → Int
  absMin : Nat → Int
  absFuzz : Nat → Int
  absFlat : Nat → Int
  absVal : Nat → Int
  key : Nat → Bool

/-- The zero-filled source record produced by `kzalloc` in
`unijoy_inph_create`, with the two fields the code assigns directly
(`source->id = id; source->name = dev->name;`).  Zero state is
UNIJOY_SOURCE_ONLINE (enum value 0) and zero corrections have type
JS_CORR_NONE (0x00).  The `key` field carries the handle's device. -/
def sourceZero (id : Nat) (dev : InputDev) : SourceRec :=
  { id := id
    name := dev.name
    axis_no := 0
    buttons_no := 0
    state := SourceState.online
    button_map := fun _ => 0
    button_revmap := fun _ => 0
    axis_map := fun _ => 0
    axis_revmap := fun _ => 0
    axis := fun _ => 0
    corrections := fun _ => ⟨CorrType.corrNone, 0, 0, 0, 0, 0⟩
    key := dev.key }

/-- Axis-map building loop of `unijoy_inph_create` (unijoy.c lines 660-666):

```
for (i = 0; i < ABS_CNT; i++)
  if (test_bit(i, dev->absbit)) {
    source->axis_map[i] = source->axis_no;
    source->axis_revmap[source->axis_no] = i;
    source->axis_no++;
  }
``` -/
def buildAxisMaps (dev : InputDev) (s : SourceRec) : SourceRec :=
  (List.range ABS_CNT).foldl (fun s i =>
    if dev.absbit i then
      { s with axis_map := upd s.axis_map i s.axis_no
               axis_revmap := upd s.axis_revmap s.axis_no i
               axis_no := s.axis_no + 1 }
    else s) s

/-- One step of the button-map building loops of `unijoy_inph_create`
(the loop body is shared by the joystick-range pass and the low-range
pass):

```
if (test_bit(i + BTN_MISC, dev->keybit)) {
  source->button_map[i] = source->buttons_no;
  source->button_revmap[source->buttons_no] = i + BTN_MISC;
  source->buttons_no++;
}
``` -/
def buildButtonStep (dev : InputDev) (s : SourceRec) (i : Nat) : SourceRec :=
  if dev.keybit (i + BTN_MISC) then
    { s with button_map := upd s.button_map i s.buttons_no
             button_revmap := upd s.button_revmap s.buttons_no (i + BTN_MISC)
             buttons_no := s.buttons_no + 1 }
  else s

/-- Button-map building loops of `unijoy_inph_create` (unijoy.c lines
668-682): first the range `BTN_JOYSTICK - BTN_MISC .. UNIJOY_MAX_BUTTONS - 1`,
then the range `0 .. BTN_JOYSTICK - BTN_MISC - 1`. -/
def buildButtonMaps (dev : InputDev) (s : SourceRec) : SourceRec :=
  (List.range (BTN_JOYSTICK - BTN_MISC)).foldl (buildButtonStep dev)
    ((List.range' (BTN_JOYSTICK - BTN_MISC)
        (UNIJOY_MAX_BUTTONS - (BTN_JOYSTICK - BTN_MISC))).foldl
      (buildButtonStep dev) s)

/-- Correction building loop of `unijoy_inph_create` (unijoy.c lines
684-707):

```
for (i = 0; i < source->axis_no; i++) {
  j = source->axis_revmap[i];
  if (input_abs_get_max(dev, j) == input_abs_get_min(dev, j)) {
    source->corrections[i].type = JS_CORR_NONE;
    source->axis[i] = input_abs_get_val(dev, j);
    continue;
  }
  source->corrections[i].type = JS_CORR_BROKEN;
  source->corrections[i].prec = input_abs_get_fuzz(dev, j);
  t = (input_abs_get_max(dev, j) + input_abs_get_min(dev, j)) / 2;
  source->corrections[i].coef[0] = t - input_abs_get_flat(dev, j);
  source->corrections[i].coef[1] = t + input_abs_get_flat(dev, j);
  t = (input_abs_get_max(dev, j) - input_abs_get_min(dev, j)) / 2
    - 2 * input_abs_get_flat(dev, j);
  if (t) {
    source->corrections[i].coef[2] = (1 << 29) / t;
    source->corrections[i].coef[3] = (1 << 29) / t;
    source->axis[i] = unijoy_inph_correct(input_abs_get_val(dev, j),
        source->corrections + i);
  }
}
```

C `/` truncates toward zero (`Int.tdiv`).  When `t` is zero the
coefficients and the cached axis value keep their `kzalloc` zeroes. -/
def buildCorrections (dev : InputDev) (s : SourceRec) : SourceRec :=
  (List.range s.axis_no).foldl (fun s i =>
    let j := s.axis_revmap i
    if dev.absMax j = dev.absMin j then
      { s with corrections := upd s.corrections i ⟨CorrType.corrNone, 0, 0, 0, 0, 0⟩
               axis := upd s.axis i (dev.absVal j) }
    else
      let t1 := Int.tdiv (dev.absMax j + dev.absMin j) 2
      let t2 := Int.tdiv (dev.absMax j - dev.absMin j) 2 - 2 * dev.absFlat j
      if t2 ≠ 0 then
        let corr : JsCorr :=
          ⟨CorrType.broken, dev.absFuzz j, t1 - dev.absFlat j, t1 + dev.absFlat j,
            Int.tdiv (2 ^ 29) t2, Int.tdiv (2 ^ 29) t2⟩
        { s with corrections := upd s.corrections i corr
                 axis := upd s.axis i (unijoy_inph_correct (dev.absVal j) corr) }
      else
        let corr : JsCorr :=
          ⟨CorrType.broken, dev.absFuzz j, t1 - dev.absFlat j, t1 + dev.absFlat j, 0, 0⟩
        { s with corrections := upd s.corrections i corr }
    ) s

/-- Translation of `unijoy_inph_create` (unijoy.c lines 643-715): derive
the id, fail if a source with that id already exists (returning NULL and
leaving the registry unchanged), otherwise allocate a zeroed record, build
the index compaction maps and the corrections, and `list_add` it to the
front of the registry.  Allocation failure is an external condition and is
not modelled.  Note the code performs no check of the derived id itself:
id 0 is handled like any other id. -/
def unijoy_inph_create (dev : InputDev) (sys : Sys) :
    Option SourceRec × Sys :=
  match unijoy_sysfs_find (unijoy_make_id dev.devid) sys with
  | some _ => (none, sys)
  | none =>
    let s :=
      buildCorrections dev
        (buildButtonMaps dev
          (buildAxisMaps dev (sourceZero (unijoy_make_id dev.devid) dev)))
    (some s, { sys with sources := s :: sys.sources })

/-- A `struct js_event` as filled in by unijoy.c: `type` and `number` are
`__u8`, `value` is `__s16` (the `__u32 time` field, filled from the
jiffies clock, is omitted — it is external nondeterminism). -/
structure JsEvent where
  type : Nat
  number : Nat
  value : Int
deriving DecidableEq, Repr

/-- Translation of `unijoy_inph_event` (unijoy.c lines 781-839), at the
granularity of its calls to `unijoy_inph_distribute`: the result is the
list of `passing_event`s distributed (in loop order) together with the
possibly updated source (the axis cache write).

```
switch (type) {
  case EV_KEY:
    if (code < BTN_MISC || value == 2) return;
    source_event.type = JS_EVENT_BUTTON;
    source_event.number = source->button_map[code - BTN_MISC];
    source_event.value = value;
    break;
  case EV_ABS:
    source_event.type = JS_EVENT_AXIS;
    source_event.number = source->axis_map[code];
    source_event.value =
      unijoy_inph_correct(value, &source->corrections[source_event.number]);
    if (source_event.value == source->axis[source_event.number]) return;
    source->axis[source_event.number] = source_event.value;
    break;
  default: return;
}
...
for (i = 0; i < output.buttons_no; i++)      (resp. axis_no)
  if (output.button_map[i].source == source &&
      output.button_map[i].mapping == source_event.number) {
    passing_event.number = i;
    unijoy_inph_distribute(&passing_event);
  }
```

`source_event.number` is a `__u8`, so the (`__u16`) `button_map` entry is
reduced mod 256 on assignment, as is the slot index `i` when assigned to
`passing_event.number`; `source_event.value` is a `__s16`, hence `wrap16`
on the raw key value (corrected axis values already fit).  The slot's
`source` pointer comparison is modelled by id equality. -/
def unijoy_inph_event (sys : Sys) (source : SourceRec) (etype code : Nat)
    (value : Int) : List JsEvent × SourceRec :=
  if etype = EV_KEY then
    if code < BTN_MISC ∨ value = 2 then ([], source)
    else
      ((List.range sys.buttons.count).filterMap (fun i =>
        if (sys.buttons.slots i).source = some source.id ∧
            (sys.buttons.slots i).mapping =
              ((source.button_map (code - BTN_MISC) % 256 : Nat) : Int) then
          some ⟨JS_EVENT_BUTTON, i % 256, wrap16 value⟩
        else none), source)
  else if etype = EV_ABS then
    let num := source.axis_map code
    let v := unijoy_inph_correct value (source.corrections num)
    if v = source.axis num then ([], source)
    else
      ((List.range sys.axes.count).filterMap (fun i =>
        if (sys.axes.slots i).source = some source.id ∧
            (sys.axes.slots i).mapping = (num : Int) then
          some ⟨JS_EVENT_AXIS, i % 256, v⟩
        else none),
       { source with axis := upd source.axis num v })
  else ([], source)

/-- A consumer (`struct unijoy_fops_client`), reduced to the `startup`
cursor that `unijoy_fops_startup` reads and advances (the live ring buffer
and its head/tail are not needed for the claims below). -/
structure Client where
  startup : Nat
deriving DecidableEq, Repr

/-- Outcome of one `unijoy_fops_startup` call: no pending snapshot event,
a synthesized snapshot event, or a NULL-pointer dereference performed by
the C code. -/
inductive StartupOut where
  | noEvent
  | ev (e : JsEvent)
  | nullDeref
deriving DecidableEq, Repr

/-- Translation of `unijoy_fops_startup` (unijoy.c lines 980-1021):

```
have_event = client->startup < (output.axis_no + output.buttons_no);
if (have_event) {
  if (client->startup < output.buttons_no) {
    event->type = JS_EVENT_BUTTON | JS_EVENT_INIT;
    event->number = client->startup;
    map = output.button_map[event->number];
    if (map.source) {
      event->value = 0;
    } else {
      button = map.source->button_revmap[map.mapping];
      input = map.source->handle.dev;
      event->value = !!test_bit(button, input->key);
    }
  } else {
    event->type = JS_EVENT_AXIS | JS_EVENT_INIT;
    event->number = client->startup - output.buttons_no;
    map = output.axis_map[event->number];
    if (!map.source) {
      event->value = 0;
    } else {
      event->value = map.source->axis[map.mapping];
    }
  }
  client->startup++;
}
```

In the button branch the NULL check is inverted: the `else` arm runs
precisely when `map.source` is NULL and immediately dereferences it —
modelled as `StartupOut.nullDeref`.  In the axis branch the slot's source
pointer is followed via its id in the registry (a live slot always has its
owner registered; an unregistered id would be a dangling pointer, also
modelled as `nullDeref`). -/
def unijoy_fops_startup (sys : Sys) (c : Client) : StartupOut × Client :=
  if c.startup < sys.axes.count + sys.buttons.count then
    if c.startup < sys.buttons.count then
      match (sys.buttons.slots c.startup).source with
      | some _ =>
        (StartupOut.ev ⟨JS_EVENT_BUTTON ||| JS_EVENT_INIT, c.startup % 256, 0⟩,
         { c with startup := c.startup + 1 })
      | none => (StartupOut.nullDeref, c)
    else
      match (sys.axes.slots (c.startup - sys.buttons.count)).source with
      | none =>
        (StartupOut.ev ⟨JS_EVENT_AXIS ||| JS_EVENT_INIT,
            (c.startup - sys.buttons.count) % 256, 0⟩,
         { c with startup := c.startup + 1 })
      | some sid =>
        match unijoy_sysfs_find sid sys with
        | some s =>
          (StartupOut.ev ⟨JS_EVENT_AXIS ||| JS_EVENT_INIT,
              (c.startup - sys.buttons.count) % 256,
              s.axis (sys.axes.slots (c.startup - sys.buttons.count)).mapping.toNat⟩,
           { c with startup := c.startup + 1 })
        | none => (StartupOut.nullDeref, c)
  else (StartupOut.noEvent, c)

/-- Fixture: a merged source with three local buttons and three local axes,
used by the mapping-table scenarios. -/
def srcA : SourceRec :=
  { id := 1
    name := "A"
    axis_no := 3
    buttons_no := 3
    state := SourceState.merged
    button_map := fun _ => 0
    button_revmap := fun _ => 0
    axis_map := fun _ => 0
    axis_revmap := fun _ => 0
    axis := fun _ => 0
    corrections := fun _ => ⟨CorrType.corrNone, 0, 0, 0, 0, 0⟩
    key := fun _ => false }

/-- Fixture: a merged source with exactly two local buttons and two local
axes (valid local indices 0 and 1). -/
def src6 : SourceRec :=
  { srcA with id := 6, name := "two", axis_no := 2, buttons_no := 2 }

/-- Fixture: a merged source (id 7) whose only local button is
BTN_JOYSTICK, currently pressed on the physical device. -/
def src1 : SourceRec :=
  { srcA with
    id := 7
    name := "stick"
    axis_no := 0
    buttons_no := 1
    button_revmap := fun i => if i = 0 then BTN_JOYSTICK else 0
    key := fun c => c == BTN_JOYSTICK }

/-- Fixture: system with source `src1` registered and virtual button 0
mapped to its local button 0 (source attached). -/
def sys1 : Sys :=
  ⟨[src1], ⟨1, fun j => if j = 0 then ⟨some 7, 0⟩ else ⟨none, 0⟩⟩, resInit⟩

/-- Fixture: system with two button channels where channel 0 has been
deleted (slot cleared, count still 2 because channel 1 is occupied) —
the state reached by `add 0; add 1; del 0`. -/
def sys1b : Sys :=
  ⟨[src1], ⟨2, fun j => if j = 1 then ⟨some 7, 0⟩ else ⟨none, 0⟩⟩, resInit⟩

/-- Fixture: a merged source (id 7) with one local button, and a system
mapping virtual button 0 to it, for the event-router claims. -/
def src7 : SourceRec :=
  { srcA with id := 7, name := "pad", axis_no := 0, buttons_no := 1 }

/-- Fixture: system with `src7` and virtual button 0 bound to its local
button 0. -/
def sys7 : Sys :=
  ⟨[src7], ⟨1, fun j => if j = 0 then ⟨some 7, 0⟩ else ⟨none, 0⟩⟩, resInit⟩

/-- Fixture: a merged source (id 9) with one local axis (identity
correction, cached value 0). -/
def src9 : SourceRec :=
  { srcA with id := 9, name := "axis-src", axis_no := 1, buttons_no := 0 }

/-- Fixture: system with `src9` and virtual axis 0 bound to its local
axis 0. -/
def sys9 : Sys :=
  ⟨[src9], resInit, ⟨1, fun j => if j = 0 then ⟨some 9, 0⟩ else ⟨none, 0⟩⟩⟩

/-- Fixture: a merged source (id 7) for the unmerge claim. -/
def cs2 : SourceRec :=
  { srcA with id := 7, name := "m", axis_no := 0, buttons_no := 1 }

/-- Fixture: system with `cs2` merged and virtual button 0 referencing it. -/
def csys2 : Sys :=
  ⟨[cs2], ⟨1, fun j => if j = 0 then ⟨some 7, 0⟩ else ⟨none, 0⟩⟩, resInit⟩

/-- Fixture: a device descriptor whose identity fields are all zero, so
the derived id is 0; no capability bits set. -/
def dev0 : InputDev :=
  { devid := ⟨0, 0, 0, 0⟩
    name := "nulldev"
    absbit := fun _ => false
    keybit := fun _ => false
    absMax := fun _ => 0
    absMin := fun _ => 0
    absFuzz := fun _ => 0
    absFlat := fun _ => 0
    absVal := fun _ => 0
    key := fun _ => false }

/-- Fixture: the empty system state (fresh module load). -/
def sysEmpty : Sys := ⟨[], resInit, resInit⟩

/-- Fixture: a Broken-line correction record with deadzone [-10, 10]
(coefficients as built for a symmetric axis). -/
def corr8 : JsCorr := ⟨CorrType.broken, 0, -10, 10, 52428800, 52428800⟩

/-- The clamp always lands in [-32767, 32767]. -/
lemma clamp32767_range (v : Int) :
    -32767 ≤ clamp32767 v ∧ clamp32767 v ≤ 32767 := by
  unfold clamp32767
  split_ifs <;> omega

/-- Every output of the correction function lies in [-32767, 32767]
(shared helper; the NONE and BROKEN branches end in the clamp, the
default branch returns 0). -/
lemma unijoy_inph_correct_range (value : Int) (corr : JsCorr) :
    -32767 ≤ unijoy_inph_correct value corr ∧
      unijoy_inph_correct value corr ≤ 32767 := by
  unfold unijoy_inph_correct
  cases corr.type
  · exact clamp32767_range _
  · exact clamp32767_range _
  · show -32767 ≤ (0 : Int) ∧ (0 : Int) ≤ 32767
    exact ⟨by decide, by decide⟩

/-- The zeroed initial table satisfies the compaction invariant. -/
lemma resInv_init : ResInv resInit :=
  ⟨fun _ _ => rfl, Or.inl rfl⟩

/-- When the compaction scan stops at `i`, slot `i` is occupied and every
slot strictly between `i` and the start index is empty. -/
lemma scanDown_some (slots : Nat → Slot) :
    ∀ k i, scanDown slots k = some i →
      i ≤ k ∧ (slots i).source ≠ none ∧
        ∀ j, i < j → j ≤ k → (slots j).source = none := by
  intro k
  induction k with
  | zero =>
    intro i h
    unfold scanDown at h
    split at h
    · exact Option.noConfusion h
    next hocc =>
      cases h
      exact ⟨Nat.le_refl 0, hocc, fun j hj hj' => absurd (Nat.lt_of_lt_of_le hj hj') (Nat.lt_irrefl _)⟩
  | succ k ih =>
    intro i h
    unfold scanDown at h
    split at h
    next hempty =>
      obtain ⟨hik, hocc, habove⟩ := ih i h
      refine ⟨Nat.le_succ_of_le hik, hocc, fun j hj hj' => ?_⟩
      rcases Nat.lt_or_ge j (k + 1) with hlt | hge
      · exact habove j hj (Nat.lt_succ_iff.mp hlt)
      · have : j = k + 1 := Nat.le_antisymm hj' hge
        rw [this]; exact hempty
    next hocc =>
      cases h
      exact ⟨Nat.le_refl _, hocc, fun j hj hj' =>
        absurd (Nat.lt_of_lt_of_le hj hj') (Nat.lt_irrefl _)⟩

/-- Writing an occupied slot below the current count keeps the invariant. -/
lemma resInv_write_lt (st : Res) (h : ResInv st) (d : Nat) (hd : d < st.count)
    (v : Slot) (hv : v.source ≠ none) :
    ResInv ⟨st.count, upd st.slots d v⟩ := by
  constructor
  · intro i hi
    have hi' : st.count ≤ i := hi
    have hne : i ≠ d := by omega
    simpa [upd, hne] using h.1 i hi'
  · right
    rcases Nat.decEq (st.count - 1) d with hne | he
    · have := h.2
      rcases this with hzero | htop
      · omega
      · simpa [upd, hne] using htop
    · simpa [upd, he] using hv

/-- Writing an occupied slot at or above the current count and growing the
count to just past it keeps the invariant. -/
lemma resInv_write_ge (st : Res) (h : ResInv st) (d : Nat) (hd : st.count ≤ d)
    (v : Slot) (hv : v.source ≠ none) :
    ResInv ⟨d + 1, upd st.slots d v⟩ := by
  constructor
  · intro i hi
    have hi' : d + 1 ≤ i := hi
    have hne : i ≠ d := by omega
    have hic : st.count ≤ i := by omega
    simpa [upd, hne] using h.1 i hic
  · right
    simpa [upd] using hv

/-- `unijoy_res_add` preserves the compaction invariant whenever it does
not fault. -/
lemma res_add_inv (cap : Nat) (local_no : SourceRec → Nat)
    (sourceOpt : Option SourceRec) (src_no dst_no : Int) (st st' : Res)
    (h : ResInv st)
    (ha : unijoy_res_add cap local_no sourceOpt src_no dst_no st = some st') :
    ResInv st' := by
  cases sourceOpt with
  | none =>
    simp only [unijoy_res_add] at ha
    cases ha; exact h
  | some source =>
    simp only [unijoy_res_add] at ha
    split at ha
    · cases ha; exact h
    split at ha
    · cases ha; exact h
    split at ha
    next hge =>
      split at ha
      · cases ha; exact h
      · cases ha
        have hd : st.count ≤ (resolveDst cap st dst_no).toNat := by omega
        exact resInv_write_ge st h _ hd _ (by simp)
    next hlt =>
      split at ha
      · exact Option.noConfusion ha
      next hnn =>
        cases ha
        have hd : (resolveDst cap st dst_no).toNat < st.count := by omega
        exact resInv_write_lt st h _ hd _ (by simp)

/-- `unijoy_res_del` preserves the compaction invariant whenever it does
not fault. -/
lemma res_del_inv (dst_no : Int) (st st' : Res) (h : ResInv st)
    (hd : unijoy_res_del dst_no st = some st') : ResInv st' := by
  unfold unijoy_res_del at hd
  split at hd
  · cases hd; exact h
  next hrange =>
    push_neg at hrange
    obtain ⟨hnn, hltc⟩ := hrange
    have hdc : dst_no.toNat < st.count := by omega
    split at hd
    · cases hd; exact h
    next hocc =>
      split at hd
      next htop =>
        split at hd
        next i hscan =>
          cases hd
          obtain ⟨hik, hiocc, habove⟩ := scanDown_some _ _ _ hscan
          constructor
          · intro j hj
            rcases Nat.lt_or_ge j st.count with hjc | hjc
            · exact habove j hj (by omega)
            · have hne : j ≠ dst_no.toNat := by omega
              simpa [upd, hne] using h.1 j hjc
          · exact Or.inr hiocc
        next hscan => exact Option.noConfusion hd
      next htop =>
        cases hd
        constructor
        · intro j hj
          have hj' : st.count ≤ j := hj
          have hne : j ≠ dst_no.toNat := by omega
          simpa [upd, hne] using h.1 j hj'
        · right
          have hne : st.count - 1 ≠ dst_no.toNat := by omega
          have hc0 : st.count ≠ 0 := by omega
          rcases h.2 with hzero | htop'
          · exact absurd hzero hc0
          · simpa [upd, hne] using htop'

/-- Running any sequence of add/del operations from a table satisfying the
compaction invariant, if no operation faults, ends in a table satisfying
the compaction invariant. -/
lemma resRun_inv (cap : Nat) (local_no : SourceRec → Nat) :
    ∀ (ops : List ResOp) (st st' : Res), ResInv st →
      resRun cap local_no ops st = some st' → ResInv st' := by
  intro ops
  induction ops with
  | nil =>
    intro st st' h hr
    unfold resRun at hr
    cases hr; exact h
  | cons op rest ih =>
    intro st st' h hr
    unfold resRun at hr
    split at hr
    · exact Option.noConfusion hr
    next st1 hstep =>
      refine ih st1 st' ?_ hr
      cases op with
      | add s sn dn => exact res_add_inv cap local_no s sn dn st st1 h hstep
      | del dn => exact res_del_inv dn st st1 h hstep

/-- The 32-bit wrap of 0 is 0. -/
lemma wrap32_zero : wrap32 0 = 0 := by decide

/-- Arithmetic shift of 0 is 0. -/
lemma sar14_zero : sar14 0 = 0 := by decide

/-- The clamp of 0 is 0. -/
lemma clamp32767_zero : clamp32767 0 = 0 := by decide

/-- C8: for every axis with Broken-line correction and deadzone
[coef0, coef1], the correction maps every input in that interval to 0,
and every output of the correction function lies in [-32767, 32767]. -/
theorem C8_broken_deadzone_and_clamp :
    (∀ (corr : JsCorr) (v : Int), corr.type = CorrType.broken →
       corr.coef0 ≤ v → v ≤ corr.coef1 → unijoy_inph_correct v corr = 0) ∧
    (∀ (v : Int) (corr : JsCorr),
       -32767 ≤ unijoy_inph_correct v corr ∧ unijoy_inph_correct v corr ≤ 32767) := by
  constructor
  · intro corr v htype hlo hhi
    simp only [unijoy_inph_correct, htype]
    by_cases hgt : v > corr.coef0
    · rw [if_pos hgt]
      by_cases hlt : v < corr.coef1
      · rw [if_pos hlt, clamp32767_zero]
      · have hveq : v = corr.coef1 := le_antisymm hhi (not_lt.mp hlt)
        rw [if_neg hlt, hveq, sub_self, wrap32_zero, mul_zero, wrap32_zero,
          sar14_zero, clamp32767_zero]
    · have hveq : v = corr.coef0 := le_antisymm (not_lt.mp hgt) hlo
      rw [if_neg hgt, hveq, sub_self, wrap32_zero, mul_zero, wrap32_zero,
        sar14_zero, clamp32767_zero]
  · intro v corr
    exact unijoy_inph_correct_range v corr

/-- C8 witness: the deadzone point 5 of `corr8` corrects to 0 and the
output at 40000 is clamped into range. -/
theorem C8_broken_deadzone_and_clamp_witness :
    unijoy_inph_correct 5 corr8 = 0 ∧
      (-32767 ≤ unijoy_inph_correct 40000 corr8 ∧
        unijoy_inph_correct 40000 corr8 ≤ 32767) :=
  ⟨C8_broken_deadzone_and_clamp.1 corr8 5 rfl (by decide) (by decide),
   C8_broken_deadzone_and_clamp.2 40000 corr8⟩

/-- C10 counterexample: a None-type correction is not the identity — the
raw value 40000 is clamped to 32767 by the shared return statement, so it
does not come back unchanged. -/
theorem C10_counterexample :
    unijoy_inph_correct 40000 ⟨CorrType.corrNone, 0, 0, 0, 0, 0⟩ ≠ 40000 := by
  decide

/-- C10 (amended): for every correction record of type None, the
correction function clamps the raw value to [-32767, 32767]; on values
already inside that interval it is the identity. -/
theorem C10_none_clamps :
    ∀ (corr : JsCorr) (v : Int), corr.type = CorrType.corrNone →
      unijoy_inph_correct v corr = clamp32767 v ∧
      (-32767 ≤ v → v ≤ 32767 → unijoy_inph_correct v corr = v) := by
  intro corr v htype
  have h1 : unijoy_inph_correct v corr = clamp32767 v := by
    simp only [unijoy_inph_correct, htype]
  refine ⟨h1, fun hlo hhi => ?_⟩
  rw [h1]
  unfold clamp32767
  split_ifs <;> omega

/-- C10 witness: the None-type correction at the in-range value 5. -/
theorem C10_none_clamps_witness :
    unijoy_inph_correct 5 ⟨CorrType.corrNone, 0, 0, 0, 0, 0⟩ = 5 :=
  (C10_none_clamps ⟨CorrType.corrNone, 0, 0, 0, 0, 0⟩ 5 rfl).2
    (by decide) (by decide)

/-- C1: the startup snapshot's button branch has its NULL check inverted.
On a state whose button channel 0 is mapped with an attached source whose
physical button is pressed, the code synthesizes value 0 (the claim
requires the live state, 1); on a state whose mapped channel has no
attached source, the code dereferences the NULL source pointer (the claim
requires value 0). -/
theorem C1_startup_inverted_null_check :
    ((unijoy_fops_startup sys1 ⟨0⟩).1 =
       StartupOut.ev ⟨JS_EVENT_BUTTON ||| JS_EVENT_INIT, 0, 0⟩) ∧
    (src1.key (src1.button_revmap ((sys1.buttons.slots 0).mapping.toNat)) = true) ∧
    ((unijoy_fops_startup sys1b ⟨0⟩).1 = StartupOut.nullDeref) :=
  ⟨rfl, rfl, rfl⟩

/-- C5: the del compaction loop runs off the bottom of the table.  Mapping
one button at destination 0 (reachable via an auto-pick add) and then
deleting destination 0 makes the scan start at the just-cleared slot 0 and
step to index -1, reading the array out of bounds (modelled as `none`);
the same holds for the axis table. -/
theorem C5_compaction_underflow :
    (resRun UNIJOY_MAX_BUTTONS (fun s => s.buttons_no)
        [ResOp.add (some srcA) 0 (-1)] resInit).isSome = true ∧
    resRun UNIJOY_MAX_BUTTONS (fun s => s.buttons_no)
        [ResOp.add (some srcA) 0 (-1), ResOp.del 0] resInit = none ∧
    resRun ABS_CNT (fun s => s.axis_no)
        [ResOp.add (some srcA) 0 (-1), ResOp.del 0] resInit = none :=
  ⟨rfl, rfl, rfl⟩

/-- C6: the add operation's local-index guard is `src_no > buttons_no`
(resp. `axis_no`), not `>=`: on a merged source with exactly two local
buttons (valid indices 0 and 1) the out-of-range index 2 is accepted and
the mapping is written (count grows to 1, slot 0 bound to local index 2);
the axis operation behaves identically. -/
theorem C6_local_index_off_by_one :
    src6.buttons_no = 2 ∧
    (unijoy_sysfs_add_button (some src6) 2 0 resInit).map
      (fun r => ((r.slots 0).source, (r.slots 0).mapping, r.count)) =
        some (some 6, 2, 1) ∧
    src6.axis_no = 2 ∧
    (unijoy_sysfs_add_axis (some src6) 2 0 resInit).map
      (fun r => ((r.slots 0).source, (r.slots 0).mapping, r.count)) =
        some (some 6, 2, 1) :=
  ⟨rfl, rfl, rfl, rfl⟩

/-- C7 counterexample: a physical button event with value 3 (neither 0 nor
1) is not ignored — the router emits an output event carrying value 3. -/
theorem C7_counterexample :
    (unijoy_inph_event sys7 src7 EV_KEY BTN_JOYSTICK 3).1 =
      [⟨JS_EVENT_BUTTON, 0, 3⟩] :=
  rfl

/-- C2 counterexample: unmerging a merged source moves it to ONLINE but
does not clear the output-mapping slot that references it — virtual
button 0 still points at source id 7 afterwards. -/
theorem C2_counterexample :
    ((unijoy_sysfs_unmerge (some cs2) csys2).buttons.slots 0).source = some 7 ∧
    (unijoy_sysfs_unmerge (some cs2) csys2).sources.map (fun t => t.state) =
      [SourceState.online] :=
  ⟨rfl, rfl⟩

/-- C2 (amended): unmerging a source in Merged state transitions it to
Online (and closes its device, an external effect); the output-mapping
tables — in particular every slot referencing the source — are left
completely unchanged. -/
theorem C2_unmerge_transition (sys : Sys) (s : SourceRec)
    (hs : s.state = SourceState.merged) :
    (unijoy_sysfs_unmerge (some s) sys).buttons = sys.buttons ∧
    (unijoy_sysfs_unmerge (some s) sys).axes = sys.axes ∧
    ∀ t ∈ (unijoy_sysfs_unmerge (some s) sys).sources,
      t.id = s.id → t.state = SourceState.online := by
  refine ⟨by simp [unijoy_sysfs_unmerge, hs], by simp [unijoy_sysfs_unmerge, hs], ?_⟩
  intro t ht hid
  have ht' : t ∈ sys.sources.map (fun u =>
      if u.id = s.id then { u with state := SourceState.online } else u) := by
    simpa [unijoy_sysfs_unmerge, hs] using ht
  obtain ⟨u, hu, heq⟩ := List.mem_map.mp ht'
  by_cases hcase : u.id = s.id
  · rw [if_pos hcase] at heq
    rw [← heq]
  · rw [if_neg hcase] at heq
    rw [← heq] at hid
    exact absurd hid hcase

/-- C2 witness: the amended claim applied to the concrete merged source. -/
theorem C2_unmerge_transition_witness :
    (unijoy_sysfs_unmerge (some cs2) csys2).axes = csys2.axes :=
  (C2_unmerge_transition csys2 cs2 rfl).2.1

/-- A fold whose step preserves the id of a source record preserves it
over the whole list. -/
lemma foldl_id {α : Type} (f : SourceRec → α → SourceRec)
    (hf : ∀ s a, (f s a).id = s.id) :
    ∀ (l : List α) (s : SourceRec), (l.foldl f s).id = s.id := by
  intro l
  induction l with
  | nil => intro s; rfl
  | cons a l ih => intro s; rw [List.foldl_cons, ih, hf]

/-- `buildAxisMaps` does not change the id. -/
lemma buildAxisMaps_id (dev : InputDev) (s : SourceRec) :
    (buildAxisMaps dev s).id = s.id := by
  unfold buildAxisMaps
  apply foldl_id
  intro s i
  by_cases h : dev.absbit i <;> simp [h]

/-- `buildButtonStep` does not change the id. -/
lemma buildButtonStep_id (dev : InputDev) (s : SourceRec) (i : Nat) :
    (buildButtonStep dev s i).id = s.id := by
  unfold buildButtonStep
  by_cases h : dev.keybit (i + BTN_MISC) <;> simp [h]

/-- `buildButtonMaps` does not change the id. -/
lemma buildButtonMaps_id (dev : InputDev) (s : SourceRec) :
    (buildButtonMaps dev s).id = s.id := by
  unfold buildButtonMaps
  rw [foldl_id _ (buildButtonStep_id dev), foldl_id _ (buildButtonStep_id dev)]

/-- `buildCorrections` does not change the id. -/
lemma buildCorrections_id (dev : InputDev) (s : SourceRec) :
    (buildCorrections dev s).id = s.id := by
  unfold buildCorrections
  apply foldl_id
  intro s i
  by_cases h1 : dev.absMax (s.axis_revmap i) = dev.absMin (s.axis_revmap i)
  · simp [h1]
  · by_cases h2 :
      Int.tdiv (dev.absMax (s.axis_revmap i) - dev.absMin (s.axis_revmap i)) 2 -
        2 * dev.absFlat (s.axis_revmap i) ≠ 0
    · simp [h1, h2]
    · simp [h1, h2]

set_option maxRecDepth 8192 in
/-- C3 counterexample: a device descriptor with all-zero identity fields
derives id 0, yet `unijoy_inph_create` succeeds on the empty registry and
inserts the source — there is no reserved-id check in the code. -/
theorem C3_counterexample :
    unijoy_make_id dev0.devid = 0 ∧
    (unijoy_inph_create dev0 sysEmpty).1.isSome = true ∧
    (unijoy_inph_create dev0 sysEmpty).2.sources.map (fun s => s.id) = [0] :=
  ⟨rfl, rfl, rfl⟩

/-- C3 (amended): source creation does not special-case the derived id 0.
It succeeds — inserting a record carrying the derived id at the front of
the registry — precisely when no source with that id is registered yet,
and fails leaving the registry unchanged when one is. -/
theorem C3_create_no_reserved_id :
    (∀ (dev : InputDev) (sys : Sys),
       unijoy_sysfs_find (unijoy_make_id dev.devid) sys = none →
       ∃ s, (unijoy_inph_create dev sys).1 = some s ∧
         s.id = unijoy_make_id dev.devid ∧
         (unijoy_inph_create dev sys).2.sources = s :: sys.sources) ∧
    (∀ (dev : InputDev) (sys : Sys),
       (unijoy_sysfs_find (unijoy_make_id dev.devid) sys).isSome = true →
       unijoy_inph_create dev sys = (none, sys)) := by
  constructor
  · intro dev sys hfind
    refine ⟨buildCorrections dev (buildButtonMaps dev
      (buildAxisMaps dev (sourceZero (unijoy_make_id dev.devid) dev))), ?_, ?_, ?_⟩
    · unfold unijoy_inph_create
      rw [hfind]
    · rw [buildCorrections_id, buildButtonMaps_id, buildAxisMaps_id]
      rfl
    · unfold unijoy_inph_create
      rw [hfind]
  · intro dev sys hsome
    obtain ⟨s, hs⟩ := Option.isSome_iff_exists.mp hsome
    unfold unijoy_inph_create
    rw [hs]

/-- C3 witness: the amended claim applied to the all-zero descriptor on
the empty registry. -/
theorem C3_create_no_reserved_id_witness :
    ∃ s, (unijoy_inph_create dev0 sysEmpty).1 = some s ∧
      s.id = unijoy_make_id dev0.devid ∧
      (unijoy_inph_create dev0 sysEmpty).2.sources = s :: sysEmpty.sources :=
  C3_create_no_reserved_id.1 dev0 sysEmpty rfl

/-- C4 counterexample: it is not the case that every sequence of add/del
operations executes cleanly and ends with the compaction invariant — the
two-operation sequence "auto-add one button, delete destination 0" makes
the compaction scan read the table at index -1 (the run faults), so no
final count satisfying the invariant exists. -/
theorem C4_counterexample :
    ¬ (∀ ops : List ResOp, ∃ st',
        resRun UNIJOY_MAX_BUTTONS (fun s => s.buttons_no) ops resInit = some st' ∧
        ResInv st') := by
  intro h
  obtain ⟨st', hrun, _⟩ := h [ResOp.add (some srcA) 0 (-1), ResOp.del 0]
  have hnone : resRun UNIJOY_MAX_BUTTONS (fun s => s.buttons_no)
      [ResOp.add (some srcA) 0 (-1), ResOp.del 0] resInit = none := rfl
  rw [hnone] at hrun
  exact Option.noConfusion hrun

/-- C4 (amended): for every sequence of add/del operations that completes
without the compaction scan running off the bottom of the table (which
happens exactly when a deletion empties the last occupied slot), the
resulting count equals one plus the highest occupied slot index and every
slot at index count or above is empty — for buttons and for axes; and in
the concrete scenario with buttons mapped at destinations 0, 1, 2,
deleting destination 1 and then destination 2 leaves count equal to 1. -/
theorem C4_compaction_invariant :
    (∀ (ops : List ResOp) (st' : Res),
       resRun UNIJOY_MAX_BUTTONS (fun s => s.buttons_no) ops resInit = some st' →
       ResInv st') ∧
    (∀ (ops : List ResOp) (st' : Res),
       resRun ABS_CNT (fun s => s.axis_no) ops resInit = some st' →
       ResInv st') ∧
    (resRun UNIJOY_MAX_BUTTONS (fun s => s.buttons_no)
        [ResOp.add (some srcA) 0 0, ResOp.add (some srcA) 1 1,
         ResOp.add (some srcA) 2 2, ResOp.del 1, ResOp.del 2] resInit).map
      (fun r => r.count) = some 1 := by
  refine ⟨?_, ?_, rfl⟩
  · intro ops st' h
    exact resRun_inv _ _ ops resInit st' resInv_init h
  · intro ops st' h
    exact resRun_inv _ _ ops resInit st' resInv_init h

/-- C4 witness: the invariant instance obtained from the empty run. -/
theorem C4_compaction_invariant_witness : ResInv resInit :=
  C4_compaction_invariant.1 [] resInit rfl

/-- A `filterMap` whose function is an if-then-some-else-none is the
`map` of the `filter`. -/
lemma filterMap_ite_eq_filter_map {α β : Type} (p : α → Prop) [DecidablePred p]
    (f : α → β) (l : List α) :
    (l.filterMap (fun a => if p a then some (f a) else none)) =
      (l.filter (fun a => decide (p a))).map f := by
  induction l with
  | nil => rfl
  | cons a l ih =>
    by_cases h : p a
    · simp [List.filterMap_cons, List.filter_cons, h, ih]
    · simp [List.filterMap_cons, List.filter_cons, h, ih]

/-- Reduction of the event router on an EV_ABS event to its two outcomes
(suppression vs. cache update and emission). -/
lemma unijoy_inph_event_abs (sys : Sys) (source : SourceRec) (code : Nat)
    (value : Int) :
    unijoy_inph_event sys source EV_ABS code value =
      if unijoy_inph_correct value (source.corrections (source.axis_map code)) =
          source.axis (source.axis_map code) then ([], source)
      else
        ((List.range sys.axes.count).filterMap (fun i =>
          if (sys.axes.slots i).source = some source.id ∧
              (sys.axes.slots i).mapping = ((source.axis_map code : Nat) : Int) then
            some ⟨JS_EVENT_AXIS, i % 256,
              unijoy_inph_correct value (source.corrections (source.axis_map code))⟩
          else none),
         { source with axis := upd source.axis (source.axis_map code) (unijoy_inph_correct value (source.corrections (source.axis_map code))) }) := by
  unfold unijoy_inph_event
  rw [if_neg (by decide : ¬ (EV_ABS = EV_KEY)), if_pos rfl]

/-- C9: on an inbound physical axis event, if the corrected value equals
the source's cached value for that local axis the event is suppressed
entirely (no output, source unchanged); otherwise the cache entry of that
local axis is updated to the corrected value (all other entries
unchanged), and one output event carrying the corrected value is produced,
in slot order, for exactly the output slots bound to this (source,
local index) pair, each with that slot's destination index. -/
theorem C9_axis_routing (sys : Sys) (source : SourceRec) (code : Nat)
    (value : Int) (hcap : sys.axes.count ≤ ABS_CNT) :
    (unijoy_inph_correct value (source.corrections (source.axis_map code)) =
        source.axis (source.axis_map code) →
      unijoy_inph_event sys source EV_ABS code value = ([], source)) ∧
    (unijoy_inph_correct value (source.corrections (source.axis_map code)) ≠
        source.axis (source.axis_map code) →
      ((unijoy_inph_event sys source EV_ABS code value).2.axis
          (source.axis_map code) =
        unijoy_inph_correct value (source.corrections (source.axis_map code))) ∧
      (∀ j, j ≠ source.axis_map code →
        (unijoy_inph_event sys source EV_ABS code value).2.axis j =
          source.axis j) ∧
      (unijoy_inph_event sys source EV_ABS code value).1 =
        ((List.range sys.axes.count).filter (fun i =>
            decide ((sys.axes.slots i).source = some source.id ∧
              (sys.axes.slots i).mapping =
                ((source.axis_map code : Nat) : Int)))).map
          (fun i => ⟨JS_EVENT_AXIS, i,
            unijoy_inph_correct value (source.corrections (source.axis_map code))⟩)) := by
  constructor
  · intro h
    rw [unijoy_inph_event_abs, if_pos h]
  · intro h
    rw [unijoy_inph_event_abs, if_neg h]
    refine ⟨by simp [upd], ?_, ?_⟩
    · intro j hj
      simp [upd, hj]
    · rw [filterMap_ite_eq_filter_map
        (fun i => (sys.axes.slots i).source = some source.id ∧
          (sys.axes.slots i).mapping = ((source.axis_map code : Nat) : Int))
        (fun i => (⟨JS_EVENT_AXIS, i % 256,
          unijoy_inph_correct value (source.corrections (source.axis_map code))⟩ :
            JsEvent))
        (List.range sys.axes.count)]
      apply List.map_congr_left
      intro i hi
      have hmem : i ∈ List.range sys.axes.count := (List.mem_filter.mp hi).1
      have hlt : i < 256 :=
        lt_of_lt_of_le (List.mem_range.mp hmem)
          (le_trans hcap (by decide))
      rw [Nat.mod_eq_of_lt hlt]

/-- C9 witness: the emission case of the claim applied to the concrete
system with one bound axis slot and a fresh corrected value. -/
theorem C9_axis_routing_witness :
    (unijoy_inph_event sys9 src9 EV_ABS 0 500).1 =
      ((List.range sys9.axes.count).filter (fun i =>
          decide ((sys9.axes.slots i).source = some src9.id ∧
            (sys9.axes.slots i).mapping = ((src9.axis_map 0 : Nat) : Int)))).map
        (fun i => ⟨JS_EVENT_AXIS, i,
          unijoy_inph_correct 500 (src9.corrections (src9.axis_map 0))⟩) :=
  ((C9_axis_routing sys9 src9 0 500 (by decide)).2 (by decide)).2.2

/-- C7 (amended): on inbound button events the router ignores exactly the
autorepeat value 2 — no output event, no state change — and processes
every other value as a normal button value: the source stays unchanged and
one output event is emitted, in slot order, per output slot bound to the
source's local button index, carrying that slot's destination index (in
the event's 8-bit number field) and the value (in the 16-bit value
field). -/
theorem C7_autorepeat_filtered :
    (∀ (sys : Sys) (source : SourceRec) (code : Nat),
       unijoy_inph_event sys source EV_KEY code 2 = ([], source)) ∧
    (∀ (sys : Sys) (source : SourceRec) (code : Nat) (value : Int),
       BTN_MISC ≤ code → value ≠ 2 →
       (unijoy_inph_event sys source EV_KEY code value).2 = source ∧
       (unijoy_inph_event sys source EV_KEY code value).1 =
         ((List.range sys.buttons.count).filter (fun i =>
             decide ((sys.buttons.slots i).source = some source.id ∧
               (sys.buttons.slots i).mapping =
                 ((source.button_map (code - BTN_MISC) % 256 : Nat) : Int)))).map
           (fun i => ⟨JS_EVENT_BUTTON, i % 256, wrap16 value⟩)) := by
  constructor
  · intro sys source code
    unfold unijoy_inph_event
    rw [if_pos rfl, if_pos (Or.inr rfl)]
  · intro sys source code value hcode hval
    have hred : unijoy_inph_event sys source EV_KEY code value =
        ((List.range sys.buttons.count).filterMap (fun i =>
          if (sys.buttons.slots i).source = some source.id ∧
              (sys.buttons.slots i).mapping =
                ((source.button_map (code - BTN_MISC) % 256 : Nat) : Int) then
            some ⟨JS_EVENT_BUTTON, i % 256, wrap16 value⟩
          else none), source) := by
      unfold unijoy_inph_event
      rw [if_pos rfl, if_neg (not_or.mpr ⟨not_lt.mpr hcode, hval⟩)]
    refine ⟨by rw [hred], ?_⟩
    rw [hred]
    exact filterMap_ite_eq_filter_map
      (fun i => (sys.buttons.slots i).source = some source.id ∧
        (sys.buttons.slots i).mapping =
          ((source.button_map (code - BTN_MISC) % 256 : Nat) : Int))
      (fun i => (⟨JS_EVENT_BUTTON, i % 256, wrap16 value⟩ : JsEvent))
      (List.range sys.buttons.count)

/-- C7 witness: the processing case applied to the concrete system with
one bound button slot and the non-autorepeat value 3. -/
theorem C7_autorepeat_filtered_witness :
    (unijoy_inph_event sys7 src7 EV_KEY BTN_JOYSTICK 3).2 = src7 ∧
    (unijoy_inph_event sys7 src7 EV_KEY BTN_JOYSTICK 3).1 =
      ((List.range sys7.buttons.count).filter (fun i =>
          decide ((sys7.buttons.slots i).source = some src7.id ∧
            (sys7.buttons.slots i).mapping =
              ((src7.button_map (BTN_JOYSTICK - BTN_MISC) % 256 : Nat) : Int)))).map
        (fun i => ⟨JS_EVENT_BUTTON, i % 256, wrap16 3⟩) :=
  C7_autorepeat_filtered.2 sys7 src7 BTN_JOYSTICK 3 (by decide) (by decide)
